import Mathlib

/-!
Verification of the Kubernetes service-registry controller
(pilot/pkg/serviceregistry/kube/controller/controller.go) against its
natural-language specification.  The Go code is shallowly embedded: the
controller's maps become association lists, IPv4 addresses become their
32-bit numeric values, and every handler becomes a pure state-passing
function returning the calls it makes on the Update Emitter (XDSUpdater).
-/

namespace KubeController

/-- IPv4 address modelled as its 32-bit numeric value. -/
abbrev IP := Nat

/-- Association-list lookup, the embedding of a Go map read returning
(value, ok). -/
def lookupAL {κ α : Type} [DecidableEq κ] (k : κ) : List (κ × α) → Option α
  | [] => none
  | (k', v) :: t => if k' = k then some v else lookupAL k t

/-- Association-list update, the embedding of a Go map write m[k] = v. -/
def updAL {κ α : Type} [DecidableEq κ] (k : κ) (v : α) : List (κ × α) → List (κ × α)
  | [] => [(k, v)]
  | (k', v') :: t => if k' = k then (k, v) :: t else (k', v') :: updAL k v t

/-- Association-list removal, the embedding of Go delete(m, k). -/
def delAL {κ α : Type} [DecidableEq κ] (k : κ) (l : List (κ × α)) : List (κ × α) :=
  l.filter fun p => decide (p.1 ≠ k)

/-- Go map read m[k] on a string-valued map: missing keys give "". -/
def lookupD (k : String) (l : List (String × String)) : String :=
  (lookupAL k l).getD ""

/-- NodeRegionLabel is the well-known label for kubernetes node region in beta. -/
def NodeRegionLabel : String := "failure-domain.beta.kubernetes.io/region"

/-- NodeZoneLabel is the well-known label for kubernetes node zone in beta. -/
def NodeZoneLabel : String := "failure-domain.beta.kubernetes.io/zone"

/-- NodeRegionLabelGA is the well-known label for kubernetes node region in ga. -/
def NodeRegionLabelGA : String := "failure-domain.kubernetes.io/region"

/-- NodeZoneLabelGA is the well-known label for kubernetes node zone in ga. -/
def NodeZoneLabelGA : String := "failure-domain.kubernetes.io/zone"

/-- Locality override label honored on pods (model.LocalityLabel). -/
def LocalityLabel : String := "istio-locality"

/-- One port of a v1.Endpoints subset (v1.EndpointPort). -/
structure EndpointPort where
  name : String
  port : Nat
  protocol : String
deriving DecidableEq

/-- One address of a v1.Endpoints subset (v1.EndpointAddress); targetRefPod
records whether TargetRef is set with Kind "Pod". -/
structure EndpointAddress where
  ip : IP
  hostname : String
  nodeName : String
  targetRefPod : Bool
deriving DecidableEq

/-- A v1.EndpointSubset: ready/not-ready addresses and ports. -/
structure EndpointSubset where
  addresses : List EndpointAddress
  notReadyAddresses : List EndpointAddress
  ports : List EndpointPort
deriving DecidableEq

/-- A v1.Endpoints object; resourceVersion stands for the mutable object
metadata that carries no endpoint information. -/
structure Endpoints where
  name : String
  ns : String
  resourceVersion : String
  subsets : List EndpointSubset
deriving DecidableEq

/-- A container port of a pod spec (v1.ContainerPort). -/
structure ContainerPort where
  name : String
  containerPort : Nat
  protocol : String
deriving DecidableEq

/-- A container of a pod spec, reduced to its ports. -/
structure Container where
  ports : List ContainerPort
deriving DecidableEq

/-- A v1.Pod, reduced to the fields the controller reads. -/
structure Pod where
  name : String
  ns : String
  labels : List (String × String)
  nodeName : String
  serviceAccountName : String
  containers : List Container
deriving DecidableEq

/-- A v1.Node, reduced to its labels. -/
structure Node where
  labels : List (String × String)
deriving DecidableEq

/-- intstr.IntOrString: a target port given by number or by name. -/
inductive IntOrString where
  | int (v : Nat) : IntOrString
  | str (v : String) : IntOrString
deriving DecidableEq

/-- A v1.ServicePort of a Kubernetes Service spec. -/
structure KubeServicePort where
  name : String
  port : Nat
  targetPort : IntOrString
  protocol : String
deriving DecidableEq

/-- A v1.Service, reduced to the fields the controller reads. -/
structure KubeService where
  name : String
  ns : String
  selector : List (String × String)
  ports : List KubeServicePort
  clusterIP : String
  svcType : String
deriving DecidableEq

/-- A model.Port: named service port. -/
structure MPort where
  name : String
  port : Nat
  protocol : String
deriving DecidableEq

/-- model.ServiceAttributes: name and namespace of the backing object. -/
structure ServiceAttributes where
  name : String
  ns : String
deriving DecidableEq

/-- A model.Service: the mesh-facing service record. -/
structure MService where
  hostname : String
  ports : List MPort
  attributes : ServiceAttributes
deriving DecidableEq

/-- model.NetworkEndpoint: one reachable address of an instance. -/
structure NetworkEndpoint where
  address : IP
  port : Nat
  servicePort : MPort
  uid : String
  network : String
  locality : String
deriving DecidableEq

/-- model.ServiceInstance: one resolved backend bound to a service. -/
structure MServiceInstance where
  endpoint : NetworkEndpoint
  service : MService
  labels : List (String × String)
  serviceAccount : String
  tlsMode : String
deriving DecidableEq

/-- model.IstioEndpoint: the push-facing representation of one backend. -/
structure IstioEndpoint where
  address : IP
  endpointPort : Nat
  servicePortName : String
  labels : List (String × String)
  uid : String
  serviceAccount : String
  network : String
  locality : String
  attrName : String
  attrNs : String
  tlsMode : String
deriving DecidableEq

/-- model.PodPort supplied out of band in proxy metadata. -/
structure PodPort where
  name : String
  containerPort : Nat
deriving DecidableEq

/-- model.NodeMetadata fields read by the controller. -/
structure ProxyMetadata where
  network : String
  clusterID : String
  serviceAccount : String
  podPorts : List PodPort
deriving DecidableEq

/-- A model.Proxy: a connected data-plane instance. -/
structure Proxy where
  id : String
  ipAddresses : List IP
  metadata : ProxyMetadata
  workloadLabels : List (List (String × String))
  configNamespace : String
  locality : String
deriving DecidableEq

/-- model.Event: the kind of a watch notification. -/
inductive Event where
  | add : Event
  | update : Event
  | delete : Event
deriving DecidableEq

/-- One CIDR range of the network map (namedRangerEntry): the network name
with the range's base address and mask length. -/
structure RangerEntry where
  name : String
  base : IP
  maskBits : Nat
deriving DecidableEq

/-- CIDR containment: the IP and the base agree on the first maskBits bits. -/
def cidrContains (e : RangerEntry) (ip : IP) : Bool :=
  decide (ip / 2 ^ (32 - e.maskBits) = e.base / 2 ^ (32 - e.maskBits))

/-- One call made on the Update Emitter (model.XDSUpdater). -/
inductive EmitterCall where
  | svcUpdate (clusterID name ns : String) (event : Event)
  | edsUpdate (clusterID hostname ns : String) (entries : List IstioEndpoint)
  | configUpdate (full : Bool) (ns : String)
deriving DecidableEq

/-- The Controller: its configuration, the mirrors it owns (servicesMap and
externalNameSvcInstanceMap), and the informer stores it reads. -/
structure Controller where
  domainSuffix : String
  clusterID : String
  servicesMap : List (String × MService)
  externalNameSvcInstanceMap : List (String × List MServiceInstance)
  servicesStore : List KubeService
  endpointsStore : List Endpoints
  podsByIP : List (IP × Pod)
  nodesByName : List (String × Node)
  ranger : Option (List RangerEntry)
  networkForRegistry : String
  mixerEnabled : Bool
  enableHeadlessService : Bool
deriving DecidableEq

/-- Modelled from the spec: kube.ServiceHostname (kube package, not among the
sources) forms the stable DNS-style hostname of a Service from its name,
namespace and the domain suffix. -/
def ServiceHostname (name ns domainSuffix : String) : String :=
  name ++ "." ++ ns ++ ".svc." ++ domainSuffix

/-- compareEndpoints returns true if the two endpoints are the same in aspects
Pilot cares about: same number of subsets, and per subset equal Ports and
equal (ready) Addresses. -/
def compareEndpoints (a b : Endpoints) : Bool :=
  decide (a.subsets.length = b.subsets.length) &&
    (a.subsets.zip b.subsets).all fun p =>
      decide (p.1.ports = p.2.ports) && decide (p.1.addresses = p.2.addresses)

/-- The UpdateFunc installed by createEDSCacheHandler: an Endpoints update is
queued as a task only when compareEndpoints rejects equality; otherwise the
update is elided ("updatesame"). -/
def edsCacheUpdateTask (old cur : Endpoints) : Option (Endpoints × Event) :=
  if compareEndpoints old cur then none else some (cur, Event.update)

/-- endpointNetwork with its warning: the mesh network for an endpoint IP and
whether the overlapping-CIDR warning is logged.  The registry-level override
wins unconditionally; otherwise the first containing entry in index order is
returned, the empty string when none matches or no ranger is configured. -/
def endpointNetworkW (c : Controller) (endpointIP : IP) : String × Bool :=
  if c.networkForRegistry.length ≠ 0 then (c.networkForRegistry, false)
  else
    match c.ranger with
    | none => ("", false)
    | some entries =>
      match entries.filter (fun e => cidrContains e endpointIP) with
      | [] => ("", false)
      | [e] => (e.name, false)
      | e :: _ :: _ => (e.name, true)

/-- endpointNetwork returns the mesh network for the endpoint IP, empty string
if not found. -/
def endpointNetwork (c : Controller) (endpointIP : IP) : String :=
  (endpointNetworkW c endpointIP).1

/-- One endpoint entry of the mesh-networks configuration: a CIDR range
(possibly unparsable) or a registry reference. -/
inductive MeshNetworkEndpoint where
  | fromCidr (valid : Bool) (base : IP) (maskBits : Nat)
  | fromRegistry (registry : String)
deriving DecidableEq

/-- InitNetworkLookup reads the mesh-networks configuration and initializes the
CIDR ranger: unparsable CIDRs are skipped with a warning, and a registry
reference equal to this controller's cluster id sets the registry-level
network override.  The configuration map is embedded as an ordered list. -/
def InitNetworkLookup (c : Controller)
    (meshNetworks : List (String × List MeshNetworkEndpoint)) : Controller :=
  if meshNetworks.isEmpty then c
  else
    meshNetworks.foldl
      (fun acc nw =>
        nw.2.foldl
          (fun acc2 ep =>
            match ep with
            | MeshNetworkEndpoint.fromCidr valid base maskBits =>
              if valid then
                let entry : RangerEntry := { name := nw.1, base := base, maskBits := maskBits }
                { acc2 with ranger := some (acc2.ranger.getD [] ++ [entry]) }
              else acc2
            | MeshNetworkEndpoint.fromRegistry registry =>
              if registry ≠ "" ∧ registry = acc2.clusterID then
                { acc2 with networkForRegistry := nw.1 }
              else acc2)
          acc)
      { c with ranger := some [] }

/-- Modelled from the spec: model.GetLocalityOrDefault (model package, not
among the sources) parses the pod-level locality label and returns it
directly when present, falling back to the default otherwise. -/
def GetLocalityOrDefault (label dflt : String) : String :=
  if label.length > 0 then label else dflt

/-- Modelled from the spec: getLabelValue (controller package helper, not among
the sources) reads the node label under the first key and falls back to the
second-generation key when the first is empty. -/
def getLabelValue (node : Node) (label fallBackLabel : String) : String :=
  let value := lookupD label node.labels
  if value ≠ "" then value else lookupD fallBackLabel node.labels

/-- GetPodLocality retrieves the locality for a pod: the pod-level locality
label wins unconditionally; otherwise the pod's node is looked up and its
region/zone labels (beta and GA key generations) are composed as
"region/zone", empty when the node is absent or both labels are empty. -/
def GetPodLocality (c : Controller) (pod : Pod) : String :=
  if (lookupD LocalityLabel pod.labels).length > 0 then
    GetLocalityOrDefault (lookupD LocalityLabel pod.labels) ""
  else
    match lookupAL pod.nodeName c.nodesByName with
    | none => ""
    | some node =>
      let region := getLabelValue node NodeRegionLabel NodeRegionLabelGA
      let zone := getLabelValue node NodeZoneLabel NodeZoneLabelGA
      if region = "" ∧ zone = "" then "" else region ++ "/" ++ zone

/-- Modelled from the spec: kube.ConvertService (conversion code, not among the
sources) produces the mesh-facing Service record: hostname from the name,
namespace and domain suffix, ports copied by name and number, attributes
carrying name and namespace. -/
def ConvertService (svc : KubeService) (domainSuffix : String) (_clusterID : String) : MService :=
  { hostname := ServiceHostname svc.name svc.ns domainSuffix
    ports := svc.ports.map fun p => { name := p.name, port := p.port, protocol := p.protocol }
    attributes := { name := svc.name, ns := svc.ns } }

/-- Modelled from the spec: kube.ExternalNameServiceInstances (conversion code,
not among the sources) synthesizes instances from the Service spec alone for
an ExternalName service, one per port, and yields nothing for any other
service type. -/
def ExternalNameServiceInstances (svc : KubeService) (svcConv : MService) :
    Option (List MServiceInstance) :=
  if svc.svcType = "ExternalName" then
    some (svcConv.ports.map fun p =>
      { endpoint := { address := 0, port := p.port, servicePort := p,
                      uid := "", network := "", locality := "" }
        service := svcConv, labels := [], serviceAccount := "", tlsMode := "disabled" })
  else none

/-- The handler appended by AppendServiceHandler: a delete removes the
hostname's entries from servicesMap and externalNameSvcInstanceMap; an
add/update replaces the servicesMap entry and recomputes the
externally-named-service instances; both branches invoke SvcUpdate on the
Update Emitter. -/
def handleServiceEvent (c : Controller) (svc : KubeService) (event : Event) :
    Controller × List EmitterCall :=
  let svcConv := ConvertService svc c.domainSuffix c.clusterID
  match event with
  | Event.delete =>
    ({ c with
        servicesMap := delAL svcConv.hostname c.servicesMap
        externalNameSvcInstanceMap := delAL svcConv.hostname c.externalNameSvcInstanceMap },
     [EmitterCall.svcUpdate c.clusterID svc.name svc.ns Event.delete])
  | e =>
    let instances := ExternalNameServiceInstances svc svcConv
    let extMap :=
      match instances with
      | none => delAL svcConv.hostname c.externalNameSvcInstanceMap
      | some l => updAL svcConv.hostname l c.externalNameSvcInstanceMap
    ({ c with
        servicesMap := updAL svcConv.hostname svcConv c.servicesMap
        externalNameSvcInstanceMap := extMap },
     [EmitterCall.svcUpdate c.clusterID svc.name svc.ns e])

/-- Folding a sequence of service watch events through the service handler,
keeping only the resulting controller state. -/
def applyServiceEvents (c : Controller) (events : List (KubeService × Event)) : Controller :=
  events.foldl (fun st e => (handleServiceEvent st e.1 e.2).1) c

/-- Services lists the service catalog: all values of servicesMap sorted by
hostname, with a nil error. -/
def Services (c : Controller) : List MService × Option String :=
  (List.insertionSort (fun a b => a.hostname ≤ b.hostname) (c.servicesMap.map Prod.snd),
   none)

/-- GetService returns the servicesMap entry for the hostname, with a nil
error; a miss gives a nil service, not an error. -/
def GetService (c : Controller) (hostname : String) : Option MService × Option String :=
  (lookupAL hostname c.servicesMap, none)

/-- Modelled from the spec: kube.SecureNamingSAN (kube package, not among the
sources) encodes the pod's service account per the SPIFFE VSID spec. -/
def SecureNamingSAN (pod : Pod) : String :=
  "spiffe://cluster.local/ns/" ++ pod.ns ++ "/sa/" ++ pod.serviceAccountName

/-- Modelled from the spec: kube.PodTLSMode (kube package, not among the
sources) reads the TLS-mode label of the pod, defaulting to disabled when the
pod is nil or unlabeled. -/
def PodTLSMode : Option Pod → String
  | none => "disabled"
  | some p =>
    let v := lookupD "security.istio.io/tlsMode" p.labels
    if v = "" then "disabled" else v

/-- labels.Collection.HasSubsetOf: an empty collection accepts everything,
otherwise some member instance must be a subset of the given labels. -/
def HasSubsetOf (ll : List (List (String × String))) (podLabels : List (String × String)) : Bool :=
  ll.isEmpty || ll.any fun inst => inst.all fun kv => decide (lookupAL kv.1 podLabels = some kv.2)

/-- The endpoints informer store read under kube.KeyFunc(name, namespace). -/
def getEndpointsByKey (store : List Endpoints) (name ns : String) : Option Endpoints :=
  store.find? fun e => decide (e.name = name ∧ e.ns = ns)

/-- model.PortList.GetByPort: the first service port with the given number. -/
def portListGetByPort (ports : List MPort) (num : Nat) : Option MPort :=
  ports.find? fun p => decide (p.port = num)

/-- model.PortList.Get: the first service port with the given name. -/
def portListGet (ports : List MPort) (name : String) : Option MPort :=
  ports.find? fun p => decide (p.name = name)

/-- The subset-port match used by InstancesByPort: the endpoint port's name is
empty ('name optional if single port is defined') or equals the service port
entry's name. -/
def endpointPortMatches (svcPortEntry : MPort) (port : EndpointPort) : Bool :=
  decide (port.name = "") || decide (svcPortEntry.name = port.name)

/-- The per-address body of InstancesByPort's subset loop: pod lookup by IP,
label filtering, and one ServiceInstance per matching subset port. -/
def instancesForAddress (c : Controller) (svc : MService) (svcPortEntry : MPort)
    (labelsList : List (List (String × String))) (ss : EndpointSubset)
    (ea : EndpointAddress) : List MServiceInstance :=
  let pod := lookupAL ea.ip c.podsByIP
  let podLabels := match pod with | some p => p.labels | none => []
  if !HasSubsetOf labelsList podLabels then []
  else
    let az := match pod with | some p => GetPodLocality c p | none => ""
    let sa := match pod with | some p => SecureNamingSAN p | none => ""
    let uid := match pod with
      | some p => if c.mixerEnabled then "kubernetes://" ++ p.name ++ "." ++ p.ns else ""
      | none => ""
    let tlsMode := PodTLSMode pod
    (ss.ports.filter (endpointPortMatches svcPortEntry)).map fun port =>
      { endpoint := { address := ea.ip, port := port.port, servicePort := svcPortEntry,
                      uid := uid, network := endpointNetwork c ea.ip, locality := az }
        service := svc, labels := podLabels, serviceAccount := sa, tlsMode := tlsMode }

/-- InstancesByPort: externally-named-service instances are returned directly
(filtered by namespace equality) when stored for the hostname; otherwise the
one Endpoints object with the matching name/namespace is resolved against the
requested service port. -/
def InstancesByPort (c : Controller) (svc : MService) (reqSvcPort : Nat)
    (labelsList : List (List (String × String))) : List MServiceInstance × Option String :=
  match lookupAL svc.hostname c.externalNameSvcInstanceMap with
  | some instances =>
    (instances.filter fun i => decide (i.service.attributes.ns = svc.attributes.ns), none)
  | none =>
    match getEndpointsByKey c.endpointsStore svc.attributes.name svc.attributes.ns with
    | none => ([], none)
    | some ep =>
      match portListGetByPort svc.ports reqSvcPort with
      | none => ([], none)
      | some svcPortEntry =>
        (ep.subsets.flatMap fun ss =>
          ss.addresses.flatMap fun ea =>
            instancesForAddress c svc svcPortEntry labelsList ss ea,
         none)

/-- Modelled from the spec: the service lister's GetPodServices (client-go, not
among the sources) returns the Services in the pod's namespace whose selector
is non-empty and matches the pod's labels. -/
def GetPodServices (store : List KubeService) (pod : Pod) : List KubeService :=
  store.filter fun svc =>
    decide (svc.ns = pod.ns) && !svc.selector.isEmpty &&
      svc.selector.all fun kv => decide (lookupAL kv.1 pod.labels = some kv.2)

/-- FindPort locates the container port for the given pod and service port: a
numeric target port passes through, a named one is looked up among all
container ports with matching protocol. -/
def FindPort (pod : Pod) (svcPort : KubeServicePort) : Except String Nat :=
  match svcPort.targetPort with
  | IntOrString.str name =>
    match (pod.containers.flatMap fun ct => ct.ports).find?
        (fun port => decide (port.name = name ∧ port.protocol = svcPort.protocol)) with
    | some port => Except.ok port.containerPort
    | none => Except.error ("no suitable port for manifest: " ++ pod.name)
  | IntOrString.int v => Except.ok v

/-- findPortFromMetadata resolves the TargetPort of a Service Port from the
proxy-supplied pod-port metadata: named ports matched by name, numeric ports
passed through. -/
def findPortFromMetadata (svcPort : KubeServicePort) (podPorts : List PodPort) :
    Except String Nat :=
  match svcPort.targetPort with
  | IntOrString.str name =>
    match podPorts.find? (fun port => decide (port.name = name)) with
    | some port => Except.ok port.containerPort
    | none => Except.error "no matching port found"
  | IntOrString.int v => Except.ok v

/-- getEndpoints builds one ServiceInstance for an address/port against a
service, reading the pod by the proxy's primary IP for labels, locality,
identity and TLS mode. -/
def getEndpoints (c : Controller) (podIP address : IP) (endpointPort : Nat)
    (svcPort : MPort) (svc : MService) : MServiceInstance :=
  let pod := lookupAL podIP c.podsByIP
  let podLabels := match pod with | some p => p.labels | none => []
  let az := match pod with | some p => GetPodLocality c p | none => ""
  let sa := match pod with | some p => SecureNamingSAN p | none => ""
  { endpoint := { address := address, port := endpointPort, servicePort := svcPort,
                  uid := "", network := endpointNetwork c address, locality := az }
    service := svc, labels := podLabels, serviceAccount := sa, tlsMode := PodTLSMode pod }

/-- hasProxyIP: whether one of the subset addresses carries the given IP. -/
def hasProxyIP (addresses : List EndpointAddress) (ip : IP) : Bool :=
  addresses.any fun ea => decide (ea.ip = ip)

/-- getProxyServiceInstancesByEndpoint: candidate instances for every subset
address (ready or not ready) equal to one of the proxy's IPs, for each subset
port resolvable in the mirrored service. -/
def getProxyServiceInstancesByEndpoint (c : Controller) (endpoints : Endpoints)
    (proxy : Proxy) : List MServiceInstance :=
  let hostname := ServiceHostname endpoints.name endpoints.ns c.domainSuffix
  match lookupAL hostname c.servicesMap with
  | none => []
  | some svc =>
    endpoints.subsets.flatMap fun ss =>
      ss.ports.flatMap fun port =>
        match portListGet svc.ports port.name with
        | none => []
        | some svcPort =>
          match proxy.ipAddresses with
          | [] => []
          | podIP :: _ =>
            proxy.ipAddresses.flatMap fun ip =>
              (if hasProxyIP ss.addresses ip then
                [getEndpoints c podIP ip port.port svcPort svc] else []) ++
              (if hasProxyIP ss.notReadyAddresses ip then
                [getEndpoints c podIP ip port.port svcPort svc] else [])

/-- getProxyServiceInstancesByPod: instances for a selector-matched Service by
mapping its declared ports to the pod's container ports. -/
def getProxyServiceInstancesByPod (c : Controller) (pod : Pod) (service : KubeService)
    (proxy : Proxy) : List MServiceInstance :=
  let hostname := ServiceHostname service.name service.ns c.domainSuffix
  match lookupAL hostname c.servicesMap with
  | none => []
  | some svc =>
    service.ports.flatMap fun port =>
      match portListGet svc.ports port.name with
      | none => []
      | some svcPort =>
        match FindPort pod port with
        | Except.error _ => []
        | Except.ok portNum =>
          match proxy.ipAddresses with
          | [] => []
          | podIP :: _ =>
            proxy.ipAddresses.map fun ip => getEndpoints c podIP ip portNum svcPort svc

/-- The per-service body of getProxyServiceInstancesFromMetadata: the mirrored
service must exist and every declared port must resolve both in the mirrored
port list and in the proxy-supplied pod-port metadata. -/
def metadataInstancesForService (c : Controller) (proxy : Proxy)
    (wl0 : List (String × String)) (svc : KubeService) :
    Except String (List MServiceInstance) :=
  let hostname := ServiceHostname svc.name svc.ns c.domainSuffix
  match lookupAL hostname c.servicesMap with
  | none => Except.error ("failed to find model service for " ++ hostname)
  | some modelService =>
    svc.ports.foldlM
      (fun acc port =>
        match portListGet modelService.ports port.name with
        | none => Except.error ("failed to get svc port for " ++ port.name)
        | some svcPort =>
          match findPortFromMetadata port proxy.metadata.podPorts with
          | Except.error e => Except.error ("failed to find target port: " ++ e)
          | Except.ok targetPort =>
            match proxy.ipAddresses with
            | [] => Except.ok acc
            | ip0 :: _ =>
              Except.ok (acc ++
                [{ endpoint := { address := ip0, port := targetPort, servicePort := svcPort,
                                 uid := "", network := endpointNetwork c ip0,
                                 locality := proxy.locality }
                   service := modelService, labels := wl0,
                   serviceAccount := proxy.metadata.serviceAccount, tlsMode := "" }]))
      []

/-- getProxyServiceInstancesFromMetadata retrieves instances from proxy
metadata: requires non-empty workload labels and a matching cluster id, finds
the Services matching a synthetic pod built from the labels, and resolves
every port; any miss is an error. -/
def getProxyServiceInstancesFromMetadata (c : Controller) (proxy : Proxy) :
    Except String (List MServiceInstance) :=
  match proxy.workloadLabels with
  | [] => Except.error "no workload labels found"
  | wl0 :: _ =>
    if proxy.metadata.clusterID = c.clusterID then
      let dummyPod : Pod :=
        { name := "", ns := proxy.configNamespace, labels := wl0,
          nodeName := "", serviceAccountName := "", containers := [] }
      match GetPodServices c.servicesStore dummyPod with
      | [] => Except.error "no instances found"
      | services =>
        services.foldlM
          (fun acc svc => do
            let l ← metadataInstancesForService c proxy wl0 svc
            pure (acc ++ l))
          []
    else Except.error "proxy is in another cluster"

/-- The tier-3 headless-endpoint scan: instances from every cached Endpoints
object, those in the proxy's namespace ordered first. -/
def headlessScan (c : Controller) (proxy : Proxy) (proxyNamespace : String) :
    List MServiceInstance :=
  let sameNS := (c.endpointsStore.filter fun ep => decide (ep.ns = proxyNamespace)).flatMap
      fun ep => getProxyServiceInstancesByEndpoint c ep proxy
  let diffNS := (c.endpointsStore.filter fun ep => !decide (ep.ns = proxyNamespace)).flatMap
      fun ep => getProxyServiceInstancesByEndpoint c ep proxy
  sameNS ++ diffNS

/-- Tiers 2 and 3 of the proxy resolution: metadata-based resolution, and on
any of its errors the headless-endpoint scan; the error itself never escapes. -/
def proxyFallback (c : Controller) (proxy : Proxy) (proxyNamespace : String) :
    List MServiceInstance × Option String :=
  match getProxyServiceInstancesFromMetadata c proxy with
  | Except.ok instances => (instances, none)
  | Except.error _ => (headlessScan c proxy proxyNamespace, none)

/-- GetProxyServiceInstances: the three-tier fallback.  With a cached pod, a
network mismatch returns empty immediately; otherwise selector-matched
Services resolve through the pod; otherwise metadata resolution, then the
headless scan. -/
def GetProxyServiceInstances (c : Controller) (proxy : Proxy) :
    List MServiceInstance × Option String :=
  match proxy.ipAddresses with
  | [] => ([], none)
  | proxyIP :: _ =>
    match lookupAL proxyIP c.podsByIP with
    | some pod =>
      if proxy.metadata.network ≠ endpointNetwork c proxyIP then ([], none)
      else
        match GetPodServices c.servicesStore pod with
        | [] => proxyFallback c proxy pod.ns
        | services =>
          (services.flatMap fun svc => getProxyServiceInstancesByPod c pod svc proxy, none)
    | none => proxyFallback c proxy ""

/-- The per-address body of updateEDS: skip addresses whose pod is missing but
referenced, otherwise one IstioEndpoint per subset port. -/
def istioEndpointsForAddress (c : Controller) (ep : Endpoints) (ss : EndpointSubset)
    (ea : EndpointAddress) : List IstioEndpoint :=
  match lookupAL ea.ip c.podsByIP with
  | none =>
    if ea.targetRefPod then []
    else
      ss.ports.map fun port =>
        { address := ea.ip, endpointPort := port.port, servicePortName := port.name,
          labels := [], uid := "", serviceAccount := "",
          network := endpointNetwork c ea.ip, locality := "",
          attrName := ep.name, attrNs := ep.ns, tlsMode := PodTLSMode none }
  | some pod =>
    let uid := if c.mixerEnabled then "kubernetes://" ++ pod.name ++ "." ++ pod.ns else ""
    ss.ports.map fun port =>
      { address := ea.ip, endpointPort := port.port, servicePortName := port.name,
        labels := pod.labels, uid := uid, serviceAccount := SecureNamingSAN pod,
        network := endpointNetwork c ea.ip, locality := GetPodLocality c pod,
        attrName := ep.name, attrNs := ep.ns, tlsMode := PodTLSMode (some pod) }

/-- updateEDS rebuilds the full IstioEndpoint set for the Endpoints object (an
empty set on delete) and invokes EDSUpdate on the Update Emitter. -/
def updateEDS (c : Controller) (ep : Endpoints) (event : Event) : List EmitterCall :=
  let hostname := ServiceHostname ep.name ep.ns c.domainSuffix
  let entries :=
    if event = Event.delete then []
    else ep.subsets.flatMap fun ss =>
      ss.addresses.flatMap fun ea => istioEndpointsForAddress c ep ss ea
  [EmitterCall.edsUpdate c.clusterID hostname ep.ns entries]

/-- The handler appended by AppendInstanceHandler: a headless service triggers
a full config push when that feature is enabled, every other Endpoints task
goes through updateEDS. -/
def instanceHandlerCalls (c : Controller) (ep : Endpoints) (event : Event) :
    List EmitterCall :=
  if c.enableHeadlessService then
    match c.servicesStore.find? (fun s => decide (s.name = ep.name ∧ s.ns = ep.ns)) with
    | some svc =>
      if svc.clusterIP = "None" then [EmitterCall.configUpdate true ep.ns]
      else updateEDS c ep event
    | none => updateEDS c ep event
  else updateEDS c ep event

/-- End-to-end processing of one Endpoints update notification: the elision
check at the informer boundary, then the queued task through the instance
handler chain. -/
def processEndpointsUpdate (c : Controller) (old cur : Endpoints) : List EmitterCall :=
  match edsCacheUpdateTask old cur with
  | none => []
  | some (e, ev) => instanceHandlerCalls c e ev

/-! Concrete fixtures used by the witness theorems. -/

/-- A controller with empty mirrors and stores, no ranger and no override. -/
def baseController : Controller :=
  { domainSuffix := "cluster.local", clusterID := "cl1", servicesMap := [],
    externalNameSvcInstanceMap := [], servicesStore := [], endpointsStore := [],
    podsByIP := [], nodesByName := [], ranger := none, networkForRegistry := "",
    mixerEnabled := false, enableHeadlessService := false }

/-- A minimal Kubernetes Service named foo in namespace ns. -/
def svcFoo : KubeService :=
  { name := "foo", ns := "ns", selector := [], ports := [], clusterIP := "", svcType := "" }

/-- An Endpoints object with one ready address and one named port. -/
def epBumpOld : Endpoints :=
  { name := "foo", ns := "ns", resourceVersion := "100",
    subsets := [{ addresses := [{ ip := 167838211, hostname := "", nodeName := "",
                                  targetRefPod := true }],
                  notReadyAddresses := [],
                  ports := [{ name := "http", port := 9376, protocol := "TCP" }] }] }

/-- The same Endpoints object after a resourceVersion-only bump. -/
def epBumpCur : Endpoints := { epBumpOld with resourceVersion := "101" }

/-- An externally-named mesh service in namespace ns. -/
def svcExtIn : MService :=
  { hostname := "ext.ns.svc.cluster.local", ports := [],
    attributes := { name := "ext", ns := "ns" } }

/-- An externally-named mesh service in another namespace. -/
def svcExtOut : MService :=
  { hostname := "ext.other.svc.cluster.local", ports := [],
    attributes := { name := "ext", ns := "other" } }

/-- A stored instance whose service is in the queried namespace. -/
def instExtIn : MServiceInstance :=
  { endpoint := { address := 0, port := 80,
                  servicePort := { name := "http", port := 80, protocol := "HTTP" },
                  uid := "", network := "", locality := "" },
    service := svcExtIn, labels := [], serviceAccount := "", tlsMode := "disabled" }

/-- A stored instance whose service is in a different namespace. -/
def instExtOut : MServiceInstance := { instExtIn with service := svcExtOut }

/-- A pod with no labels, scheduled on no node. -/
def podSimple : Pod :=
  { name := "p", ns := "ns", labels := [], nodeName := "",
    serviceAccountName := "", containers := [] }

/-- A proxy on network "n2" with primary IP 7 and matching cluster id. -/
def proxyMismatch : Proxy :=
  { id := "x", ipAddresses := [7],
    metadata := { network := "n2", clusterID := "cl1", serviceAccount := "", podPorts := [] },
    workloadLabels := [], configNamespace := "ns", locality := "" }

/-- A proxy with primary IP 7 and no out-of-band workload labels. -/
def proxyNoLabels : Proxy :=
  { id := "x", ipAddresses := [7],
    metadata := { network := "", clusterID := "cl1", serviceAccount := "", podPorts := [] },
    workloadLabels := [], configNamespace := "ns", locality := "" }

/-- A mesh service defining two named ports. -/
def svcTwoPorts : MService :=
  { hostname := "foo.ns.svc.cluster.local",
    ports := [{ name := "http", port := 8080, protocol := "HTTP" },
              { name := "grpc", port := 9090, protocol := "GRPC" }],
    attributes := { name := "foo", ns := "ns" } }

/-- A ready endpoint address. -/
def eaWildcard : EndpointAddress :=
  { ip := 167838211, hostname := "", nodeName := "", targetRefPod := false }

/-- An endpoint port with an empty name. -/
def portWildcard : EndpointPort := { name := "", port := 9376, protocol := "TCP" }

/-- A subset with the one ready address and the empty-named port. -/
def ssWildcard : EndpointSubset :=
  { addresses := [eaWildcard], notReadyAddresses := [], ports := [portWildcard] }

/-- The Endpoints object backing svcTwoPorts. -/
def epWildcard : Endpoints :=
  { name := "foo", ns := "ns", resourceVersion := "1", subsets := [ssWildcard] }

/-- A node carrying beta-generation region/zone labels. -/
def nodeConflict : Node :=
  { labels := [(NodeRegionLabel, "eu-west"), (NodeZoneLabel, "2b")] }

/-- A pod carrying the locality override label, scheduled on nodeConflict. -/
def podLocalityLabeled : Pod :=
  { name := "p1", ns := "ns", labels := [(LocalityLabel, "us-east/1a")],
    nodeName := "n1", serviceAccountName := "", containers := [] }

/-- A pod with no locality label on a node with no region/zone labels. -/
def podUnlabeledBare : Pod :=
  { name := "p2", ns := "ns", labels := [], nodeName := "bare",
    serviceAccountName := "", containers := [] }

/-- The controller holding nodeConflict and a label-less node. -/
def cLocality : Controller :=
  { baseController with nodesByName := [("n1", nodeConflict), ("bare", { labels := [] })] }

/-- A mesh service under hostname a.ns.svc.cluster.local. -/
def svcHostA : MService :=
  { hostname := "a.ns.svc.cluster.local", ports := [],
    attributes := { name := "a", ns := "ns" } }

/-- A mesh service under hostname b.ns.svc.cluster.local. -/
def svcHostB : MService :=
  { hostname := "b.ns.svc.cluster.local", ports := [],
    attributes := { name := "b", ns := "ns" } }

/-- A CIDR entry mapping 10.0.0.0/8 to netA. -/
def rangerNetA : RangerEntry := { name := "netA", base := 167772160, maskBits := 8 }

/-- A CIDR entry mapping 10.0.0.0/16 to netB, overlapping rangerNetA. -/
def rangerNetB : RangerEntry := { name := "netB", base := 167772160, maskBits := 16 }

/-- The controller with the two overlapping CIDR entries and no override. -/
def cRanger : Controller := { baseController with ranger := some [rangerNetA, rangerNetB] }

instance : IsTotal MService (fun a b => a.hostname ≤ b.hostname) :=
  ⟨fun a b => le_total a.hostname b.hostname⟩

instance : IsTrans MService (fun a b => a.hostname ≤ b.hostname) :=
  ⟨fun _ _ _ h1 h2 => le_trans h1 h2⟩

/-! Helper lemmas about the association-list operations and the handlers. -/

theorem lookup_updAL_self {κ α : Type} [DecidableEq κ] (k : κ) (v : α) :
    ∀ l : List (κ × α), lookupAL k (updAL k v l) = some v := by
  intro l
  induction l with
  | nil => simp [lookupAL, updAL]
  | cons hd tl ih =>
    by_cases h : hd.1 = k
    · simp [lookupAL, updAL, h]
    · simp [lookupAL, updAL, h, ih]

theorem lookup_delAL_self {κ α : Type} [DecidableEq κ] (k : κ) :
    ∀ l : List (κ × α), lookupAL k (delAL k l) = none := by
  intro l
  induction l with
  | nil => simp [lookupAL, delAL]
  | cons hd tl ih =>
    by_cases h : hd.1 = k
    · simpa [delAL, h] using ih
    · simpa [delAL, lookupAL, h] using ih

theorem handleServiceEvent_domainSuffix (c : Controller) (svc : KubeService) (ev : Event) :
    (handleServiceEvent c svc ev).1.domainSuffix = c.domainSuffix := by
  cases ev <;> rfl

theorem handleServiceEvent_clusterID (c : Controller) (svc : KubeService) (ev : Event) :
    (handleServiceEvent c svc ev).1.clusterID = c.clusterID := by
  cases ev <;> rfl

theorem applyServiceEvents_domainSuffix (c : Controller) :
    ∀ es : List (KubeService × Event), (applyServiceEvents c es).domainSuffix = c.domainSuffix := by
  intro es
  induction es generalizing c with
  | nil => rfl
  | cons e t ih =>
    show (applyServiceEvents (handleServiceEvent c e.1 e.2).1 t).domainSuffix = _
    rw [ih, handleServiceEvent_domainSuffix]

theorem applyServiceEvents_clusterID (c : Controller) :
    ∀ es : List (KubeService × Event), (applyServiceEvents c es).clusterID = c.clusterID := by
  intro es
  induction es generalizing c with
  | nil => rfl
  | cons e t ih =>
    show (applyServiceEvents (handleServiceEvent c e.1 e.2).1 t).clusterID = _
    rw [ih, handleServiceEvent_clusterID]

theorem lookup_after_handleServiceEvent (c : Controller) (svc : KubeService) (ev : Event) :
    lookupAL (ServiceHostname svc.name svc.ns c.domainSuffix)
        (handleServiceEvent c svc ev).1.servicesMap =
      (match ev with
       | Event.delete => none
       | _ => some (ConvertService svc c.domainSuffix c.clusterID)) := by
  cases ev with
  | delete =>
    show lookupAL _ (delAL (ConvertService svc c.domainSuffix c.clusterID).hostname _) = _
    exact lookup_delAL_self _ _
  | add =>
    exact lookup_updAL_self _ _ _
  | update =>
    exact lookup_updAL_self _ _ _

/-- C2: for every Service delete event, the service handler removes the entry
for the Service's hostname from servicesMap, removes the externally-named
service instances for that hostname from externalNameSvcInstanceMap, and
always invokes SvcUpdate on the Update Emitter — a delete is never elided. -/
theorem serviceDelete_removes_and_always_notifies (c : Controller) (svc : KubeService) :
    lookupAL (ServiceHostname svc.name svc.ns c.domainSuffix)
        (handleServiceEvent c svc Event.delete).1.servicesMap = none ∧
    lookupAL (ServiceHostname svc.name svc.ns c.domainSuffix)
        (handleServiceEvent c svc Event.delete).1.externalNameSvcInstanceMap = none ∧
    (handleServiceEvent c svc Event.delete).2 =
      [EmitterCall.svcUpdate c.clusterID svc.name svc.ns Event.delete] := by
  refine ⟨?_, ?_, rfl⟩
  · exact lookup_after_handleServiceEvent c svc Event.delete
  · exact lookup_delAL_self _ _

/-- C3: the Service Map entry for a hostname after a sequence of service
events whose last event is for that hostname equals the entry after applying
only the last event; in particular a trailing delete leaves the hostname
absent regardless of prior adds or updates. -/
theorem serviceMap_determined_by_last_event (c : Controller)
    (es : List (KubeService × Event)) (e : KubeService × Event) (hn : String)
    (hlast : ServiceHostname e.1.name e.1.ns c.domainSuffix = hn) :
    lookupAL hn (applyServiceEvents c (es ++ [e])).servicesMap =
      lookupAL hn (applyServiceEvents c [e]).servicesMap ∧
    (e.2 = Event.delete →
      lookupAL hn (applyServiceEvents c (es ++ [e])).servicesMap = none) := by
  have happ : applyServiceEvents c (es ++ [e]) =
      (handleServiceEvent (applyServiceEvents c es) e.1 e.2).1 := by
    simp [applyServiceEvents, List.foldl_append]
  have hone : applyServiceEvents c [e] = (handleServiceEvent c e.1 e.2).1 := rfl
  have hds : (applyServiceEvents c es).domainSuffix = c.domainSuffix :=
    applyServiceEvents_domainSuffix c es
  have hcid : (applyServiceEvents c es).clusterID = c.clusterID :=
    applyServiceEvents_clusterID c es
  have hl : lookupAL hn (applyServiceEvents c (es ++ [e])).servicesMap =
      (match e.2 with
       | Event.delete => none
       | _ => some (ConvertService e.1 c.domainSuffix c.clusterID)) := by
    rw [happ, ← hlast, ← hds]
    rw [lookup_after_handleServiceEvent (applyServiceEvents c es) e.1 e.2, hds, hcid]
  have hr : lookupAL hn (applyServiceEvents c [e]).servicesMap =
      (match e.2 with
       | Event.delete => none
       | _ => some (ConvertService e.1 c.domainSuffix c.clusterID)) := by
    rw [hone, ← hlast]
    exact lookup_after_handleServiceEvent c e.1 e.2
  refine ⟨hl.trans hr.symm, fun hdel => ?_⟩
  rw [hl, hdel]

/-- Witness for C3: two adds then a delete of the same service leave its
hostname absent, and agree with applying the delete alone. -/
theorem serviceMap_determined_by_last_event_witness :
    lookupAL "foo.ns.svc.cluster.local"
        (applyServiceEvents baseController
          ([(svcFoo, Event.add), (svcFoo, Event.update)] ++
            [(svcFoo, Event.delete)])).servicesMap =
      lookupAL "foo.ns.svc.cluster.local"
        (applyServiceEvents baseController [(svcFoo, Event.delete)]).servicesMap ∧
    lookupAL "foo.ns.svc.cluster.local"
        (applyServiceEvents baseController
          ([(svcFoo, Event.add), (svcFoo, Event.update)] ++
            [(svcFoo, Event.delete)])).servicesMap = none := by
  have h := serviceMap_determined_by_last_event baseController
    [(svcFoo, Event.add), (svcFoo, Event.update)] (svcFoo, Event.delete)
    "foo.ns.svc.cluster.local" (by rfl)
  exact ⟨h.1, h.2 rfl⟩

/-- C5: when externally-named-service instances are stored for the queried
hostname, InstancesByPort returns exactly the stored instances whose service
namespace equals the queried service's namespace, with no error, and the
result does not depend on the Endpoints store at all. -/
theorem instancesByPort_externalName_short_circuit (c : Controller) (svc : MService)
    (reqSvcPort : Nat) (labelsList : List (List (String × String)))
    (insts : List MServiceInstance)
    (hext : lookupAL svc.hostname c.externalNameSvcInstanceMap = some insts) :
    InstancesByPort c svc reqSvcPort labelsList =
      (insts.filter fun i => decide (i.service.attributes.ns = svc.attributes.ns), none) ∧
    ∀ eps : List Endpoints,
      InstancesByPort { c with endpointsStore := eps } svc reqSvcPort labelsList =
        (insts.filter fun i => decide (i.service.attributes.ns = svc.attributes.ns), none) := by
  constructor
  · simp [InstancesByPort, hext]
  · intro eps
    simp [InstancesByPort, hext]

/-- Witness for C5: a stored instance list is returned filtered by namespace,
with or without Endpoints objects in the store. -/
theorem instancesByPort_externalName_short_circuit_witness :
    InstancesByPort
      { baseController with
        externalNameSvcInstanceMap := [("ext.ns.svc.cluster.local", [instExtIn, instExtOut])] }
      svcExtIn 80 [] = ([instExtIn], none) := by
  have h := (instancesByPort_externalName_short_circuit
    { baseController with
      externalNameSvcInstanceMap := [("ext.ns.svc.cluster.local", [instExtIn, instExtOut])] }
    svcExtIn 80 [] [instExtIn, instExtOut] (by rfl)).1
  simpa using h

/-- C6: with a cached pod for the proxy's primary IP whose resolved network
differs from the proxy's declared network, GetProxyServiceInstances returns
the empty instance list with no error, immediately. -/
theorem proxy_network_mismatch_returns_empty (c : Controller) (proxy : Proxy)
    (ip : IP) (rest : List IP) (pod : Pod)
    (hip : proxy.ipAddresses = ip :: rest)
    (hpod : lookupAL ip c.podsByIP = some pod)
    (hnet : proxy.metadata.network ≠ endpointNetwork c ip) :
    GetProxyServiceInstances c proxy = ([], none) := by
  simp [GetProxyServiceInstances, hip, hpod, hnet]

/-- Witness for C6: a proxy on network "n2" whose pod IP resolves to the
registry-wide network "n1" gets an empty result. -/
theorem proxy_network_mismatch_returns_empty_witness :
    GetProxyServiceInstances
      { baseController with podsByIP := [(7, podSimple)], networkForRegistry := "n1" }
      proxyMismatch = ([], none) := by
  exact proxy_network_mismatch_returns_empty
    { baseController with podsByIP := [(7, podSimple)], networkForRegistry := "n1" }
    proxyMismatch 7 [] podSimple (by rfl) (by rfl) (by decide)

theorem compareEndpoints_zip_all (xs : List EndpointSubset) :
    ∀ ys : List EndpointSubset,
      xs.map (fun s => (s.addresses, s.ports)) = ys.map (fun s => (s.addresses, s.ports)) →
      ((xs.zip ys).all fun p =>
        decide (p.1.ports = p.2.ports) && decide (p.1.addresses = p.2.addresses)) = true := by
  induction xs with
  | nil => intro ys _; simp
  | cons x xt ih =>
    intro ys h
    cases ys with
    | nil => simp at h
    | cons y yt =>
      simp only [List.map_cons, List.cons.injEq, Prod.mk.injEq] at h
      obtain ⟨⟨ha, hp⟩, ht⟩ := h
      simp [List.zip_cons_cons, ha, hp, ih yt ht]

theorem compareEndpoints_of_subsets_eq (a b : Endpoints)
    (h : a.subsets.map (fun s => (s.addresses, s.ports)) =
         b.subsets.map (fun s => (s.addresses, s.ports))) :
    compareEndpoints a b = true := by
  have hlen : a.subsets.length = b.subsets.length := by
    have := congrArg List.length h
    simpa using this
  simp [compareEndpoints, hlen, compareEndpoints_zip_all a.subsets b.subsets h]

/-- C1: an Endpoints update whose subsets carry identical address and port
lists (any difference confined to resourceVersion or other metadata) is
recognized by compareEndpoints, queues no task, and produces no Update
Emitter call at all — in particular no EDSUpdate. -/
theorem endpointsUpdate_elided (c : Controller) (old cur : Endpoints)
    (h : old.subsets.map (fun s => (s.addresses, s.ports)) =
         cur.subsets.map (fun s => (s.addresses, s.ports))) :
    compareEndpoints old cur = true ∧
    edsCacheUpdateTask old cur = none ∧
    processEndpointsUpdate c old cur = [] := by
  have hc := compareEndpoints_of_subsets_eq old cur h
  refine ⟨hc, ?_, ?_⟩
  · simp [edsCacheUpdateTask, hc]
  · simp [processEndpointsUpdate, edsCacheUpdateTask, hc]

/-- Witness for C1: a resourceVersion-only bump of an Endpoints object with
one ready address and one port is elided end to end. -/
theorem endpointsUpdate_elided_witness :
    compareEndpoints epBumpOld epBumpCur = true ∧
    edsCacheUpdateTask epBumpOld epBumpCur = none ∧
    processEndpointsUpdate baseController epBumpOld epBumpCur = [] := by
  exact endpointsUpdate_elided baseController epBumpOld epBumpCur (by rfl)

theorem string_length_eq_zero_iff (s : String) : s.length = 0 ↔ s = "" := by
  constructor
  · intro h
    cases s with
    | mk data =>
      cases data with
      | nil => rfl
      | cons a t => simp [String.length] at h
  · intro h
    subst h
    rfl

/-- C4: network resolution is deterministic: the registry-level override is
returned for every IP with no warning, regardless of the ranger; without an
override, an unmatched IP yields the empty string; exactly one containing
CIDR yields its network name without a warning; overlapping containing CIDRs
yield the first match in index order and raise the warning. -/
theorem endpointNetwork_resolution (c : Controller) (ip : IP) :
    (c.networkForRegistry ≠ "" →
      endpointNetworkW c ip = (c.networkForRegistry, false)) ∧
    (c.networkForRegistry = "" →
      (c.ranger = none ∨
        ∃ entries, c.ranger = some entries ∧
          entries.filter (fun e => cidrContains e ip) = []) →
      endpointNetworkW c ip = ("", false)) ∧
    (∀ entries e, c.networkForRegistry = "" → c.ranger = some entries →
      entries.filter (fun x => cidrContains x ip) = [e] →
      endpointNetworkW c ip = (e.name, false)) ∧
    (∀ entries e e2 rest, c.networkForRegistry = "" → c.ranger = some entries →
      entries.filter (fun x => cidrContains x ip) = e :: e2 :: rest →
      endpointNetworkW c ip = (e.name, true)) := by
  refine ⟨?_, ?_, ?_, ?_⟩
  · intro hne
    have hlen : c.networkForRegistry.length ≠ 0 := by
      intro h0
      exact hne ((string_length_eq_zero_iff _).mp h0)
    simp [endpointNetworkW, hlen]
  · intro he hcase
    have hlen : c.networkForRegistry.length = 0 := (string_length_eq_zero_iff _).mpr he
    rcases hcase with hnone | ⟨entries, hsome, hfil⟩
    · simp [endpointNetworkW, hlen, hnone]
    · simp [endpointNetworkW, hlen, hsome, hfil]
  · intro entries e he hsome hfil
    have hlen : c.networkForRegistry.length = 0 := (string_length_eq_zero_iff _).mpr he
    simp [endpointNetworkW, hlen, hsome, hfil]
  · intro entries e e2 rest he hsome hfil
    have hlen : c.networkForRegistry.length = 0 := (string_length_eq_zero_iff _).mpr he
    simp [endpointNetworkW, hlen, hsome, hfil]

/-- Witness for C4: with an override the override wins even with a containing
CIDR configured; without one, a miss yields "", a unique match yields its
name, and two overlapping matches yield the first with the warning. -/
theorem endpointNetwork_resolution_witness :
    endpointNetworkW { cRanger with networkForRegistry := "n1" } 167772165 = ("n1", false) ∧
    endpointNetworkW cRanger 3232235521 = ("", false) ∧
    endpointNetworkW { cRanger with ranger := some [rangerNetA] } 167772165 =
      ("netA", false) ∧
    endpointNetworkW cRanger 167772165 = ("netA", true) := by
  refine ⟨?_, ?_, ?_, ?_⟩
  · exact (endpointNetwork_resolution { cRanger with networkForRegistry := "n1" } 167772165).1
      (by decide)
  · exact (endpointNetwork_resolution cRanger 3232235521).2.1 rfl
      (Or.inr ⟨[rangerNetA, rangerNetB], rfl, by decide⟩)
  · exact (endpointNetwork_resolution { cRanger with ranger := some [rangerNetA] }
      167772165).2.2.1 [rangerNetA] rangerNetA rfl rfl (by decide)
  · exact (endpointNetwork_resolution cRanger 167772165).2.2.2
      [rangerNetA, rangerNetB] rangerNetA rangerNetB [] rfl rfl (by decide)

/-- C9: the pod-level locality label wins unconditionally when present; with
no label, a missing node or a node with empty region and zone labels (in
both key generations) yields "", and otherwise the locality is the
"region/zone" composition. -/
theorem getPodLocality_resolution (c : Controller) (pod : Pod) :
    (lookupD LocalityLabel pod.labels ≠ "" →
      GetPodLocality c pod = lookupD LocalityLabel pod.labels) ∧
    (lookupD LocalityLabel pod.labels = "" →
      lookupAL pod.nodeName c.nodesByName = none → GetPodLocality c pod = "") ∧
    (∀ node, lookupD LocalityLabel pod.labels = "" →
      lookupAL pod.nodeName c.nodesByName = some node →
      getLabelValue node NodeRegionLabel NodeRegionLabelGA = "" →
      getLabelValue node NodeZoneLabel NodeZoneLabelGA = "" →
      GetPodLocality c pod = "") ∧
    (∀ node, lookupD LocalityLabel pod.labels = "" →
      lookupAL pod.nodeName c.nodesByName = some node →
      ¬(getLabelValue node NodeRegionLabel NodeRegionLabelGA = "" ∧
        getLabelValue node NodeZoneLabel NodeZoneLabelGA = "") →
      GetPodLocality c pod =
        getLabelValue node NodeRegionLabel NodeRegionLabelGA ++ "/" ++
          getLabelValue node NodeZoneLabel NodeZoneLabelGA) := by
  refine ⟨?_, ?_, ?_, ?_⟩
  · intro hne
    have hpos : 0 < (lookupD LocalityLabel pod.labels).length := by
      rcases Nat.eq_zero_or_pos (lookupD LocalityLabel pod.labels).length with h0 | h
      · exact absurd ((string_length_eq_zero_iff _).mp h0) hne
      · exact h
    simp [GetPodLocality, hpos, GetLocalityOrDefault]
  · intro he hnode
    have h0 : (lookupD LocalityLabel pod.labels).length = 0 :=
      (string_length_eq_zero_iff _).mpr he
    simp [GetPodLocality, h0, hnode]
  · intro node he hnode hr hz
    have h0 : (lookupD LocalityLabel pod.labels).length = 0 :=
      (string_length_eq_zero_iff _).mpr he
    simp [GetPodLocality, h0, hnode, hr, hz]
  · intro node he hnode hrz
    have h0 : (lookupD LocalityLabel pod.labels).length = 0 :=
      (string_length_eq_zero_iff _).mpr he
    simp [GetPodLocality, h0, hnode, hrz]

/-- Witness for C9: a labeled pod keeps its label value against a node with
conflicting region/zone labels, and an unlabeled pod on a label-less node
resolves to the empty locality. -/
theorem getPodLocality_resolution_witness :
    GetPodLocality cLocality podLocalityLabeled = "us-east/1a" ∧
    GetPodLocality cLocality podUnlabeledBare = "" := by
  constructor
  · have h := (getPodLocality_resolution cLocality podLocalityLabeled).1 (by decide)
    simpa using h
  · exact (getPodLocality_resolution cLocality podUnlabeledBare).2.2.1
      { labels := [] } rfl rfl rfl rfl

/-- C10: Services returns a nil error and a list that is a permutation of the
Service Map's values (one entry per mirrored service), sorted by hostname in
ascending order; GetService on an absent hostname returns a nil service with
a nil error. -/
theorem services_sorted_and_getService_miss (c : Controller) :
    (Services c).2 = none ∧
    (Services c).1.Perm (c.servicesMap.map Prod.snd) ∧
    List.Sorted (fun a b : MService => a.hostname ≤ b.hostname) (Services c).1 ∧
    ∀ hostname, lookupAL hostname c.servicesMap = none →
      GetService c hostname = (none, none) := by
  refine ⟨rfl, List.perm_insertionSort _ _, List.sorted_insertionSort _ _, ?_⟩
  intro hostname h
  simp [GetService, h]

/-- Witness for C10: a two-entry map is listed with no error, and a miss
yields the (nil, nil) pair. -/
theorem services_sorted_and_getService_miss_witness :
    (Services { baseController with
      servicesMap := [("b.ns.svc.cluster.local", svcHostB),
                      ("a.ns.svc.cluster.local", svcHostA)] }).2 = none ∧
    GetService { baseController with
      servicesMap := [("b.ns.svc.cluster.local", svcHostB),
                      ("a.ns.svc.cluster.local", svcHostA)] } "missing.host" =
      (none, none) := by
  exact ⟨(services_sorted_and_getService_miss _).1,
    (services_sorted_and_getService_miss { baseController with
      servicesMap := [("b.ns.svc.cluster.local", svcHostB),
                      ("a.ns.svc.cluster.local", svcHostA)] }).2.2.2
      "missing.host" (by rfl)⟩

/-- Counterexample for C7: a service with two ports and an endpoint port with
an empty name — the claim says the empty name must not match a multi-port
service, but InstancesByPort emits the instance anyway, because the code
applies the empty-name wildcard unconditionally. -/
theorem instancesByPort_empty_name_counterexample :
    svcTwoPorts.ports.length = 2 ∧
    ((InstancesByPort { baseController with endpointsStore := [epWildcard] }
        svcTwoPorts 8080 []).1.map fun i => i.endpoint.port) = [9376] := by
  exact ⟨rfl, rfl⟩

/-- C7 amended: in InstancesByPort's endpoint-backed path an endpoint port
with an empty name is a wildcard match for the requested service port
unconditionally — with no restriction on how many ports the service defines;
a named endpoint port still matches by name equality only. -/
theorem instancesByPort_empty_name_matches (c : Controller) (svc : MService)
    (reqSvcPort : Nat) (ep : Endpoints) (ss : EndpointSubset) (ea : EndpointAddress)
    (p : EndpointPort) (svcPortEntry : MPort)
    (hext : lookupAL svc.hostname c.externalNameSvcInstanceMap = none)
    (hep : getEndpointsByKey c.endpointsStore svc.attributes.name svc.attributes.ns = some ep)
    (hport : portListGetByPort svc.ports reqSvcPort = some svcPortEntry)
    (hsub : ep.subsets = [ss]) (haddr : ss.addresses = [ea]) (hports : ss.ports = [p])
    (hname : p.name = "") :
    ((InstancesByPort c svc reqSvcPort []).1.map fun i =>
      (i.endpoint.address, i.endpoint.port, i.endpoint.servicePort)) =
      [(ea.ip, p.port, svcPortEntry)] := by
  simp [InstancesByPort, hext, hep, hport, hsub, haddr, hports,
    instancesForAddress, HasSubsetOf, endpointPortMatches, hname]

/-- Witness for C7 amended: a two-port service indeed yields the one instance
carried by the empty-named endpoint port. -/
theorem instancesByPort_empty_name_matches_witness :
    ((InstancesByPort { baseController with endpointsStore := [epWildcard] }
        svcTwoPorts 8080 []).1.map fun i =>
      (i.endpoint.address, i.endpoint.port, i.endpoint.servicePort)) =
      [(167838211, 9376, { name := "http", port := 8080, protocol := "HTTP" })] := by
  exact instancesByPort_empty_name_matches
    { baseController with endpointsStore := [epWildcard] }
    svcTwoPorts 8080 epWildcard ssWildcard eaWildcard portWildcard
    { name := "http", port := 8080, protocol := "HTTP" }
    rfl rfl rfl rfl rfl rfl rfl

/-- C8: whenever tier-2 metadata-based resolution fails, and tier 1 did not
short-circuit (no cached pod, or a cached pod on the right network with no
selector-matched service), GetProxyServiceInstances returns no error and the
result of the tier-3 headless-endpoint scan. -/
theorem metadataFailure_falls_through (c : Controller) (proxy : Proxy)
    (ip : IP) (rest : List IP) (e : String)
    (hip : proxy.ipAddresses = ip :: rest)
    (hmeta : getProxyServiceInstancesFromMetadata c proxy = Except.error e)
    (htier1 : ∀ pod, lookupAL ip c.podsByIP = some pod →
      proxy.metadata.network = endpointNetwork c ip ∧
        GetPodServices c.servicesStore pod = []) :
    (GetProxyServiceInstances c proxy).2 = none ∧
    ∃ pns, GetProxyServiceInstances c proxy = (headlessScan c proxy pns, none) := by
  cases hp : lookupAL ip c.podsByIP with
  | none =>
    have hmain : GetProxyServiceInstances c proxy = proxyFallback c proxy "" := by
      simp [GetProxyServiceInstances, hip, hp]
    have hfb : proxyFallback c proxy "" = (headlessScan c proxy "", none) := by
      simp [proxyFallback, hmeta]
    refine ⟨?_, "", ?_⟩ <;> rw [hmain, hfb]
  | some pod =>
    obtain ⟨hnet, hsvcs⟩ := htier1 pod hp
    have hmain : GetProxyServiceInstances c proxy = proxyFallback c proxy pod.ns := by
      simp [GetProxyServiceInstances, hip, hp, hnet, hsvcs]
    have hfb : proxyFallback c proxy pod.ns = (headlessScan c proxy pod.ns, none) := by
      simp [proxyFallback, hmeta]
    refine ⟨?_, pod.ns, ?_⟩ <;> rw [hmain, hfb]

/-- Witness for C8: a proxy with no cached pod and empty workload labels (a
tier-2 failure) resolves through the headless scan with no error. -/
theorem metadataFailure_falls_through_witness :
    (GetProxyServiceInstances baseController proxyNoLabels).2 = none ∧
    ∃ pns, GetProxyServiceInstances baseController proxyNoLabels =
      (headlessScan baseController proxyNoLabels pns, none) := by
  exact metadataFailure_falls_through baseController proxyNoLabels 7 []
    "no workload labels found"
    rfl rfl (by intro pod hp; simp [baseController, lookupAL] at hp)

end KubeController
